import Mathlib

/-!
# Verification of the Ductolator workbook-inspector script

A shallow embedding of `src/excel/analyze_excel.py`, a 16-line script that
loads a workbook with `data_only=False`, prints the active sheet's title and
dimensions, and then scans rows 1–40 × columns 1–15, printing one line per
populated cell: `<coordinate>: FORMULA: <text>` when the stringified value
begins with `=`, else `<coordinate>: <text>`.

Modelling conventions:
* A cell value is `None` or a scalar; we model the scalars the spec names
  (text, integer number, boolean, date).  Floating-point numbers are outside
  the embedding.  `pyStr` is Python's `str()` on these values.
* `Worksheet.cells r c` is the value of the cell in (1-based) row `r`,
  column `c`, as `openpyxl` would report it with `data_only=False`.
* Python's `print(s)` writes `s` followed by one newline, so each call
  contributes the `'\n'`-separated segments of its argument as complete
  output lines; `printedLines` flattens the calls accordingly.
* The process is modelled by `runScript` over a `World` carrying the raw
  workbook file and the stdout stream; the workbook parser is an arbitrary
  function parameter, failure modelled by `Except.error`.
-/

namespace Ductolator

/-- A present cell value as `openpyxl` exposes it with `data_only=False`:
text (including formula text beginning with `=`), an integer number, a
boolean, or a date (a midnight `datetime`). -/
inductive CellValue where
  | str (s : String)
  | int (n : Int)
  | bool (b : Bool)
  | date (y m d : Nat)
deriving DecidableEq

/-- Decimal rendering of `n` left-padded with zeros to width `w`. -/
def zeroPad (w : Nat) (n : Nat) : String :=
  let s := toString n
  String.mk (List.replicate (w - s.length) '0') ++ s

/-- Python's `str()` on a cell value: text is itself, integers render in
decimal with a leading `-` when negative, booleans render `True`/`False`,
and a date renders as `datetime` does, `YYYY-MM-DD 00:00:00`. -/
def pyStr : CellValue → String
  | .str s => s
  | .int n => toString n
  | .bool b => if b then "True" else "False"
  | .date y m d =>
      zeroPad 4 y ++ "-" ++ zeroPad 2 m ++ "-" ++ zeroPad 2 d ++ " 00:00:00"

/-- `val.startswith('=')`: the string's first character is `=`. -/
def beginsWithEq (s : String) : Bool :=
  match s.data with
  | [] => false
  | c :: _ => c = '='

/-- A worksheet as the script consumes it: `title`, `dimensions` (the
used-range string) and the per-cell values, indexed by 1-based row and
column; `none` is an empty/absent cell. -/
structure Worksheet where
  title : String
  dimensions : String
  cells : Nat → Nat → Option CellValue

/-- A loaded workbook; the script only uses its active sheet. -/
structure Workbook where
  active : Worksheet

/-- `openpyxl.utils.get_column_letter`, fuelled: repeatedly `divmod` the
1-based column index by 26, mapping remainder 0 to `Z` with a borrow,
accumulating letters least-significant first.  The index strictly decreases,
so fuel equal to the starting index suffices. -/
def colLetterAux : Nat → Nat → List Char
  | 0, _ => []
  | _ + 1, 0 => []
  | fuel + 1, n + 1 =>
    let m := n + 1
    let r := m % 26
    if r = 0 then Char.ofNat 90 :: colLetterAux fuel (m / 26 - 1)
    else Char.ofNat (r + 64) :: colLetterAux fuel (m / 26)

/-- `get_column_letter c`: the spreadsheet letter(s) of 1-based column `c`
(1 ↦ `A`, …, 15 ↦ `O`, 26 ↦ `Z`, 27 ↦ `AA`). -/
def get_column_letter (c : Nat) : String :=
  String.mk (colLetterAux c c).reverse

/-- `cell.coordinate` of the cell at row `r`, column `c`: column letters
followed by the decimal row number, e.g. `B7`. -/
def coordinate (r c : Nat) : String :=
  get_column_letter c ++ toString r

/-- The line the scan loop prints for a populated cell at `(r, c)` holding
`v`: `val = str(cell.value)`; if `val.startswith('=')` then
`<coordinate>: FORMULA: <val>` else `<coordinate>: <val>`. -/
def cellLine (r c : Nat) (v : CellValue) : String :=
  let val := pyStr v
  if beginsWithEq val then coordinate r c ++ ": FORMULA: " ++ val
  else coordinate r c ++ ": " ++ val

/-- The scan loop `for row in sheet.iter_rows(min_row=1, max_row=40,
min_col=1, max_col=15): for cell in row: if cell.value is not None: …`,
recorded as `(row, column, printed line)` triples in execution order. -/
def scanEntries (sheet : Worksheet) : List (Nat × Nat × String) :=
  (List.range' 1 40).flatMap fun r =>
    (List.range' 1 15).filterMap fun c =>
      (sheet.cells r c).map fun v => (r, c, cellLine r c v)

/-- The cell lines the scan loop prints, in order. -/
def scanLines (sheet : Worksheet) : List String :=
  (scanEntries sheet).map fun e => e.2.2

/-- The arguments of the script's `print` calls, in program order: the
`Sheet:` line, the `Dimensions:` line, the section banner (whose string
itself begins and ends with a newline), then one call per populated cell
of the scan window. -/
def printCalls (sheet : Worksheet) : List String :=
  ["Sheet: " ++ sheet.title,
   "Dimensions: " ++ sheet.dimensions,
   "\n=== All cells with values ===\n"]
  ++ scanLines sheet

/-- Split a character list at newlines; the list of segments is never
empty, and characters other than `'\n'` extend the current first segment. -/
def splitChars : List Char → List (List Char)
  | [] => [[]]
  | c :: rest =>
    if c = '\n' then [] :: splitChars rest
    else
      match splitChars rest with
      | [] => [[c]]
      | seg :: segs => (c :: seg) :: segs

/-- The newline-separated segments of a string. -/
def splitLines (s : String) : List String :=
  (splitChars s.data).map fun l => String.mk l

/-- The physical stdout lines produced by a sequence of `print` calls:
`print(s)` writes `s` and then a newline, so each call contributes the
newline-separated segments of its argument as complete lines. -/
def printedLines (calls : List String) : List String :=
  calls.flatMap splitLines

/-- All stdout lines of a successful run over `sheet`. -/
def outputLines (sheet : Worksheet) : List String :=
  printedLines (printCalls sheet)

/-- The observable state of a run: the workbook file's raw bytes on disk
and the stdout stream produced so far. -/
structure World where
  file : List Nat
  out : List String

/-- The whole script: `load_workbook` parses the file's bytes (an arbitrary
parser models the third-party library; `Except.error` is a load failure
propagating unhandled).  On failure the program terminates having printed
nothing; on success every `print` call of the header and scan runs.  The
script never writes the file. -/
def runScript (parse : List Nat → Except String Workbook) (w : World) : World :=
  match parse w.file with
  | Except.error _ => w
  | Except.ok wb => { w with out := w.out ++ printCalls wb.active }

/-- The scan-window predicate: rows 1–40, columns 1–15 (A–O). -/
def inWindow (r c : Nat) : Prop :=
  1 ≤ r ∧ r ≤ 40 ∧ 1 ≤ c ∧ c ≤ 15

instance (r c : Nat) : Decidable (inWindow r c) := by
  unfold inWindow; infer_instance

/-- The worksheet of the spec's Scenario A: sheet `Sheet1`, used range
`A1:C3`, A1 = `Flow Rate`, B1 = `100`, C2 = `=A1*2`, all else empty. -/
def scenarioA : Worksheet where
  title := "Sheet1"
  dimensions := "A1:C3"
  cells r c :=
    if r = 1 ∧ c = 1 then some (.str "Flow Rate")
    else if r = 1 ∧ c = 2 then some (.int 100)
    else if r = 2 ∧ c = 3 then some (.str "=A1*2")
    else none

/-- Worksheet with an empty-string cell at A1 and a boolean at B1:
`openpyxl` reports both as present (`is not None`), so both are printed. -/
def edgeSheet : Worksheet where
  title := "Edge"
  dimensions := "A1:B1"
  cells r c :=
    if r = 1 ∧ c = 1 then some (.str "")
    else if r = 1 ∧ c = 2 then some (.bool true)
    else none

/-- Membership in the scan trace characterised: an entry for `(r, c)` with
line `s` is produced exactly when `(r, c)` lies in the fixed window and the
cell is populated, with `s` the line the loop formats for its value. -/
lemma mem_scanEntries (sheet : Worksheet) (r c : Nat) (s : String) :
    (r, c, s) ∈ scanEntries sheet ↔
      inWindow r c ∧ ∃ v, sheet.cells r c = some v ∧ s = cellLine r c v := by
  simp only [scanEntries, inWindow, List.mem_flatMap, List.mem_filterMap,
    List.mem_range'_1, Option.map_eq_some', Prod.mk.injEq]
  constructor
  · rintro ⟨r0, ⟨hr1, hr2⟩, c0, ⟨hc1, hc2⟩, v, hv, rfl, rfl, rfl⟩
    exact ⟨⟨hr1, by omega, hc1, by omega⟩, v, hv, rfl⟩
  · rintro ⟨⟨hr1, hr2, hc1, hc2⟩, v, hv, rfl⟩
    exact ⟨r, ⟨hr1, by omega⟩, c, ⟨hc1, by omega⟩, v, hv, rfl, rfl, rfl⟩

/-- Every entry of the scan trace for `(r, c)` comes from the window. -/
lemma scanEntries_window {sheet : Worksheet} {e : Nat × Nat × String}
    (h : e ∈ scanEntries sheet) : inWindow e.1 e.2.1 :=
  ((mem_scanEntries sheet e.1 e.2.1 e.2.2).mp h).1

/-- The scan trace is strictly increasing in the lexicographic
(row, column) order: the outer loop ascends rows 1–40 and the inner loop
ascends columns 1–15. -/
lemma scanEntries_pairwise (sheet : Worksheet) :
    List.Pairwise
      (fun e1 e2 : Nat × Nat × String =>
        e1.1 < e2.1 ∨ (e1.1 = e2.1 ∧ e1.2.1 < e2.2.1))
      (scanEntries sheet) := by
  unfold scanEntries
  rw [List.pairwise_flatMap]
  constructor
  · intro r _
    rw [List.pairwise_filterMap]
    refine (List.pairwise_lt_range' 1 15).imp ?_
    intro c1 c2 hlt e1 he1 e2 he2
    rw [Option.mem_def, Option.map_eq_some'] at he1 he2
    obtain ⟨v1, _, rfl⟩ := he1
    obtain ⟨v2, _, rfl⟩ := he2
    exact Or.inr ⟨rfl, hlt⟩
  · refine (List.pairwise_lt_range' 1 40).imp ?_
    intro r1 r2 hlt e1 he1 e2 he2
    rw [List.mem_filterMap] at he1 he2
    obtain ⟨c1, _, hc1⟩ := he1
    obtain ⟨c2, _, hc2⟩ := he2
    rw [Option.map_eq_some'] at hc1 hc2
    obtain ⟨v1, _, rfl⟩ := hc1
    obtain ⟨v2, _, rfl⟩ := hc2
    exact Or.inl hlt

/-- At most 600 entries: each of the 40 rows contributes at most 15. -/
lemma scanEntries_length_le (sheet : Worksheet) :
    (scanEntries sheet).length ≤ 600 := by
  unfold scanEntries
  rw [List.length_flatMap]
  have h := List.sum_le_card_nsmul
    ((List.range' 1 40).map
      (List.length ∘ fun r =>
        (List.range' 1 15).filterMap fun c =>
          (sheet.cells r c).map fun v => (r, c, cellLine r c v)))
    15 ?_
  · simpa using h
  · intro x hx
    rw [List.mem_map] at hx
    obtain ⟨r, _, rfl⟩ := hx
    simpa using List.length_filterMap_le _ (List.range' 1 15)

/-- The (row, column) keys of the scan trace are pairwise distinct. -/
lemma scanKeys_nodup (sheet : Worksheet) :
    ((scanEntries sheet).map fun e => (e.1, e.2.1)).Nodup := by
  refine List.Pairwise.map _ ?_ (scanEntries_pairwise sheet)
  rintro a b (hlt | ⟨heq, hlt⟩) <;> intro hcontra <;>
    rw [Prod.mk.injEq] at hcontra <;> omega

/-- Appending the empty string changes nothing (Python `s + ''`). -/
lemma string_append_empty (s : String) : s ++ "" = s :=
  String.append_empty s

example : get_column_letter 1 = "A" := by decide
example : get_column_letter 15 = "O" := by decide
example : get_column_letter 26 = "Z" := by decide
example : get_column_letter 27 = "AA" := by decide
example : coordinate 7 2 = "B7" := by decide
example : scanLines scenarioA = ["A1: Flow Rate", "B1: 100", "C2: FORMULA: =A1*2"] := by decide
example : outputLines scenarioA =
    ["Sheet: Sheet1", "Dimensions: A1:C3", "", "=== All cells with values ===", "",
     "A1: Flow Rate", "B1: 100", "C2: FORMULA: =A1*2"] := by decide

/-- C1: every printed cell line arises from a populated cell of the scan
window, and it is tagged `FORMULA:` (printed as
`<coordinate>: FORMULA: <text>`) if and only if the cell's stringified
value begins with `=`; every other printed cell line is the bare
`<coordinate>: <text>`.  The workbook is loaded with `data_only=False`, so
`cells` holds formula text rather than cached results. -/
theorem C1_formula_tagging (sheet : Worksheet) (line : String)
    (h : line ∈ scanLines sheet) :
    ∃ r c v, inWindow r c ∧ sheet.cells r c = some v ∧
      ((beginsWithEq (pyStr v) = true ∧
          line = coordinate r c ++ ": FORMULA: " ++ pyStr v) ∨
       (beginsWithEq (pyStr v) = false ∧
          line = coordinate r c ++ ": " ++ pyStr v)) := by
  rw [scanLines, List.mem_map] at h
  obtain ⟨⟨r, c, s⟩, hmem, rfl⟩ := h
  obtain ⟨hw, v, hv, rfl⟩ := (mem_scanEntries sheet r c s).mp hmem
  refine ⟨r, c, v, hw, hv, ?_⟩
  cases hb : beginsWithEq (pyStr v)
  · exact Or.inr ⟨rfl, by simp [cellLine, hb]⟩
  · exact Or.inl ⟨rfl, by simp [cellLine, hb]⟩

theorem C1_formula_tagging_witness :
    ∃ r c v, inWindow r c ∧ scenarioA.cells r c = some v ∧
      ((beginsWithEq (pyStr v) = true ∧
          "C2: FORMULA: =A1*2" = coordinate r c ++ ": FORMULA: " ++ pyStr v) ∨
       (beginsWithEq (pyStr v) = false ∧
          "C2: FORMULA: =A1*2" = coordinate r c ++ ": " ++ pyStr v)) :=
  C1_formula_tagging scenarioA "C2: FORMULA: =A1*2" (by decide)

/-- C2: no output entry is ever produced for a cell outside the fixed scan
window — row greater than 40 or column greater than 15 — whatever the
worksheet's populated extent; the bounds are literals in the loop, the same
on every run. -/
theorem C2_fixed_window (sheet : Worksheet) (r c : Nat) (s : String)
    (h : 40 < r ∨ 15 < c) : (r, c, s) ∉ scanEntries sheet := by
  intro hmem
  obtain ⟨⟨h1, h2, h3, h4⟩, _⟩ := (mem_scanEntries sheet r c s).mp hmem
  omega

theorem C2_fixed_window_witness :
    (41, 1, "A41: late") ∉ scanEntries scenarioA ∧
    (1, 16, "P1: wide") ∉ scanEntries scenarioA :=
  ⟨C2_fixed_window scenarioA 41 1 "A41: late" (by omega),
   C2_fixed_window scenarioA 1 16 "P1: wide" (by omega)⟩

/-- C3: a cell of the scan window whose value is empty/absent (`None`)
produces no output entry: the `cell.value is not None` guard skips it. -/
theorem C3_skip_empty (sheet : Worksheet) (r c : Nat) (s : String)
    (_hw : inWindow r c) (h : sheet.cells r c = none) :
    (r, c, s) ∉ scanEntries sheet := by
  intro hmem
  obtain ⟨_, v, hv, _⟩ := (mem_scanEntries sheet r c s).mp hmem
  rw [h] at hv
  exact Option.noConfusion hv

theorem C3_skip_empty_witness : (2, 2, "B2: ghost") ∉ scanEntries scenarioA :=
  C3_skip_empty scenarioA 2 2 "B2: ghost" (by decide) (by decide)

/-- C4: the scan trace is in row-major order — every entry of row `r`
precedes every entry of any later row, and within one row entries appear in
strictly increasing column order. -/
theorem C4_row_major (sheet : Worksheet) :
    List.Pairwise
      (fun e1 e2 : Nat × Nat × String =>
        e1.1 < e2.1 ∨ (e1.1 = e2.1 ∧ e1.2.1 < e2.2.1))
      (scanEntries sheet) :=
  scanEntries_pairwise sheet

/-- C5: the load precedes all printing.  When the parse of the file fails
the run terminates with the world unchanged — zero output lines, no partial
output; when it succeeds, every header and cell line is appended to stdout. -/
theorem C5_load_before_output (parse : List Nat → Except String Workbook)
    (w : World) :
    (∀ e, parse w.file = Except.error e → runScript parse w = w) ∧
    (∀ wb, parse w.file = Except.ok wb →
      (runScript parse w).out = w.out ++ printCalls wb.active) := by
  constructor
  · intro e h
    simp [runScript, h]
  · intro wb h
    simp [runScript, h]

theorem C5_load_before_output_witness :
    runScript (fun _ => Except.error "FileNotFoundError") { file := [], out := [] } =
      { file := [], out := [] } ∧
    (runScript (fun _ => Except.ok { active := scenarioA })
        { file := [], out := [] }).out = [] ++ printCalls scenarioA :=
  ⟨(C5_load_before_output (fun _ => Except.error "FileNotFoundError")
      { file := [], out := [] }).1 "FileNotFoundError" rfl,
   (C5_load_before_output (fun _ => Except.ok { active := scenarioA })
      { file := [], out := [] }).2 { active := scenarioA } rfl⟩

/-- C6 counterexample: the header is NOT exactly sheet-name line,
dimensions line, blank line, section-label line with the first data line
immediately after the label — on Scenario A the label is followed by a
further blank line (the banner string ends in `\n` and `print` adds its
own), so the claimed output differs from the actual one. -/
theorem C6_header_counterexample :
    outputLines scenarioA ≠
      ["Sheet: Sheet1", "Dimensions: A1:C3", "", "=== All cells with values ==="]
        ++ scanLines scenarioA := by decide

/-- C6 (amended): on every successful run the output starts with exactly
the sheet-name line, the dimensions line, a blank line, the section-label
line, and one more blank line, immediately followed by the cell lines
(provided the title, dimensions and cell texts contain no newline). -/
theorem C6_header (sheet : Worksheet)
    (ht : splitLines ("Sheet: " ++ sheet.title) = ["Sheet: " ++ sheet.title])
    (hd : splitLines ("Dimensions: " ++ sheet.dimensions) =
      ["Dimensions: " ++ sheet.dimensions])
    (hl : ∀ line ∈ scanLines sheet, splitLines line = [line]) :
    outputLines sheet =
      ["Sheet: " ++ sheet.title, "Dimensions: " ++ sheet.dimensions, "",
       "=== All cells with values ===", ""] ++ scanLines sheet := by
  have hb : splitLines "\n=== All cells with values ===\n" =
      ["", "=== All cells with values ===", ""] := by decide
  have htail : (scanLines sheet).flatMap splitLines = scanLines sheet := by
    rw [List.flatMap_congr hl, List.flatMap_singleton']
  unfold outputLines printedLines printCalls
  rw [List.flatMap_append, htail]
  simp [ht, hd, hb]

theorem C6_header_witness :
    outputLines scenarioA =
      ["Sheet: " ++ scenarioA.title, "Dimensions: " ++ scenarioA.dimensions, "",
       "=== All cells with values ===", ""] ++ scanLines scenarioA :=
  C6_header scenarioA (by decide) (by decide) (by decide)

/-- C7: determinism — two runs over worlds holding the same file bytes (and
the same stdout so far) produce identical stdout streams; the output is a
function of the file's contents alone. -/
theorem C7_deterministic_output (parse : List Nat → Except String Workbook)
    (w1 w2 : World) (hf : w1.file = w2.file) (ho : w1.out = w2.out) :
    (runScript parse w1).out = (runScript parse w2).out := by
  unfold runScript
  rw [hf]
  cases parse w2.file with
  | error e => simpa using ho
  | ok wb => simp [ho]

theorem C7_deterministic_output_witness :
    (runScript (fun _ => Except.ok { active := scenarioA })
        { file := [7], out := [] }).out =
    (runScript (fun _ => Except.ok { active := scenarioA })
        { file := [7], out := [] }).out :=
  C7_deterministic_output (fun _ => Except.ok { active := scenarioA })
    { file := [7], out := [] } { file := [7], out := [] } rfl rfl

/-- C8: the script never mutates the workbook: the file's bytes are the
same after every run, successful or failed — the embedding of the script
contains no write operation at all. -/
theorem C8_workbook_unchanged (parse : List Nat → Except String Workbook)
    (w : World) : (runScript parse w).file = w.file := by
  unfold runScript
  cases parse w.file with
  | error e => rfl
  | ok wb => rfl

/-- C9: the skip predicate is exactly `value is None`, not textual
emptiness: an in-window cell holding the empty string is still printed (as
`<coordinate>: ` with empty text), and any present non-formula value is
printed with its default string conversion rather than skipped. -/
theorem C9_skip_is_none_only (sheet : Worksheet) (r c : Nat) (v : CellValue)
    (hw : inWindow r c) (h : sheet.cells r c = some v) :
    (r, c, cellLine r c v) ∈ scanEntries sheet ∧
      (v = CellValue.str "" → cellLine r c v = coordinate r c ++ ": ") ∧
      (beginsWithEq (pyStr v) = false →
        cellLine r c v = coordinate r c ++ ": " ++ pyStr v) := by
  refine ⟨(mem_scanEntries sheet r c _).mpr ⟨hw, v, h, rfl⟩, ?_, ?_⟩
  · rintro rfl
    have hb : beginsWithEq "" = false := by decide
    simp [cellLine, pyStr, hb, string_append_empty]
  · intro hb
    simp [cellLine, hb]

theorem C9_skip_is_none_only_witness :
    ((1, 1, cellLine 1 1 (CellValue.str "")) ∈ scanEntries edgeSheet ∧
      (CellValue.str "" = CellValue.str "" →
        cellLine 1 1 (CellValue.str "") = coordinate 1 1 ++ ": ") ∧
      (beginsWithEq (pyStr (CellValue.str "")) = false →
        cellLine 1 1 (CellValue.str "") =
          coordinate 1 1 ++ ": " ++ pyStr (CellValue.str ""))) ∧
    ((1, 2, cellLine 1 2 (CellValue.bool true)) ∈ scanEntries edgeSheet ∧
      (CellValue.bool true = CellValue.str "" →
        cellLine 1 2 (CellValue.bool true) = coordinate 1 2 ++ ": ") ∧
      (beginsWithEq (pyStr (CellValue.bool true)) = false →
        cellLine 1 2 (CellValue.bool true) =
          coordinate 1 2 ++ ": " ++ pyStr (CellValue.bool true))) :=
  ⟨C9_skip_is_none_only edgeSheet 1 1 (CellValue.str "") (by decide) (by decide),
   C9_skip_is_none_only edgeSheet 1 2 (CellValue.bool true) (by decide) (by decide)⟩

/-- C10: a successful run prints at most 600 cell lines (the 40 × 15
window), and each populated in-window cell is printed exactly once — its
(row, column) key occurs exactly once in the scan trace. -/
theorem C10_line_budget (sheet : Worksheet) :
    (scanLines sheet).length ≤ 600 ∧
    ((scanEntries sheet).map fun e => (e.1, e.2.1)).Nodup ∧
    ∀ r c v, inWindow r c → sheet.cells r c = some v →
      (r, c) ∈ (scanEntries sheet).map fun e => (e.1, e.2.1) := by
  refine ⟨?_, scanKeys_nodup sheet, ?_⟩
  · rw [scanLines, List.length_map]
    exact scanEntries_length_le sheet
  · intro r c v hw h
    rw [List.mem_map]
    exact ⟨(r, c, cellLine r c v),
      (mem_scanEntries sheet r c _).mpr ⟨hw, v, h, rfl⟩, rfl⟩

theorem C10_line_budget_witness :
    (scanLines scenarioA).length ≤ 600 ∧
      (1, 1) ∈ (scanEntries scenarioA).map fun e => (e.1, e.2.1) :=
  ⟨(C10_line_budget scenarioA).1,
   (C10_line_budget scenarioA).2.2 1 1 (CellValue.str "Flow Rate")
     (by decide) (by decide)⟩

end Ductolator
